import Mathlib

/-!
Shallow embedding of `examples/mnist_branch.py`, a neon example script that
configures and trains a branching multi-layer perceptron on MNIST.  The
script is pure configuration assembly: it declares a branching layer
topology, a weighted multi-term cost, an optimizer, and lifecycle
callbacks, then hands everything to the external training engine.  The
definitions below mirror the script statement by statement; the training
engine itself (fit, eval, tensor ops) is external and is represented only
through its observable configuration inputs and the final printed report.
-/

namespace MnistBranch

/-- Activation functions used by the script (`Rectlin`, `Logistic` which is
the sigmoid, `Softmax`). -/
inductive Activation where
  | rectlin
  | logistic
  | softmax
deriving DecidableEq

/-- A layer of a path: `Affine(nout, linear_name, activation)` (a fully
connected layer) or `BranchNode(name)`.  The Gaussian weight initializer is
shared by every Affine layer in the script and carries no distinguishing
data, so it is omitted. -/
inductive Layer where
  | affine (nout : Nat) (linear_name : String) (activation : Activation)
  | branchNode (name : String)
deriving DecidableEq

/-- `b1 = BranchNode(name="b1")` (line 95). -/
def b1 : Layer := .branchNode "b1"

/-- `b2 = BranchNode(name="b2")` (line 96). -/
def b2 : Layer := .branchNode "b2"

/-- Main path `p1` (lines 99-104): four Affine layers with `b1` after the
first and `b2` after the third, ending in a softmax Affine. -/
def p1 : List Layer :=
  [.affine 100 "m_l1" .rectlin,
   b1,
   .affine 32 "m_l2" .rectlin,
   .affine 16 "m_l3" .rectlin,
   b2,
   .affine 10 "m_l4" .softmax]

/-- Subordinate path `p2` (lines 106-108), rooted at `b1`. -/
def p2 : List Layer :=
  [b1,
   .affine 16 "b1_l1" .rectlin,
   .affine 10 "b1_l2" .logistic]

/-- Subordinate path `p3` (lines 110-112), rooted at `b2`. -/
def p3 : List Layer :=
  [b2,
   .affine 16 "b2_l1" .rectlin,
   .affine 10 "b2_l2" .logistic]

/-- `Tree([p1, p2, p3], alphas=alphas)` (line 126): the paths in declaration
order. -/
def treePaths : List (List Layer) := [p1, p2, p3]

/-- Whether a layer is a fully connected (Affine) layer. -/
def Layer.isAffine : Layer → Bool
  | .affine _ _ _ => true
  | .branchNode _ => false

/-- Whether a layer is a branch point. -/
def Layer.isBranchNode : Layer → Bool
  | .affine _ _ _ => false
  | .branchNode _ => true

/-- The activation of a layer, when it is an Affine layer. -/
def Layer.activationOf : Layer → Option Activation
  | .affine _ _ a => some a
  | .branchNode _ => none

/-- Check that each subordinate path (every path after the first) starts
with a branch node that occurs in exactly one path positioned earlier in
declaration order. -/
def subordinateRootsDeclaredEarlier (paths : List (List Layer)) : Bool :=
  (List.range paths.length).all fun i =>
    if i = 0 then true
    else
      match (paths.getD i []).head? with
      | some (Layer.branchNode n) =>
          ((paths.take i).countP fun p => p.contains (Layer.branchNode n)) = 1
      | _ => false

/-- Cost function kinds (`CrossEntropyMulti`, `CrossEntropyBinary`). -/
inductive CostFunc where
  | crossEntropyMulti
  | crossEntropyBinary
deriving DecidableEq

/-- `GeneralizedCost(costfunc=...)`. -/
structure GeneralizedCost where
  costfunc : CostFunc
deriving DecidableEq

/-- `Multicost(costs=..., weights=...)`. -/
structure Multicost where
  costs : List GeneralizedCost
  weights : List ℚ
deriving DecidableEq

/-- `alphas = [1, 0.25, 0.25]` (line 114). -/
def alphas : List ℚ := [1, 0.25, 0.25]

/-- `cost = Multicost(costs=[...CrossEntropyMulti..., ...CrossEntropyBinary...,
...CrossEntropyBinary...], weights=alphas)` (lines 117-120). -/
def cost : Multicost :=
  ⟨[⟨.crossEntropyMulti⟩, ⟨.crossEntropyBinary⟩, ⟨.crossEntropyBinary⟩], alphas⟩

/-- The command-line arguments the script consumes (`args` from
`NeonArgparser`).  `model_file` is `none` when the flag is absent; the other
fields carry the parsed values. -/
structure Args where
  backend : String
  rng_seed : Int
  device_id : Int
  datatype : String
  rounding : Bool
  epochs : Nat
  validation_freq : Int
  serialize : Int
  save_path : String
  model_file : Option String
  data_dir : String
  output_file : String
  progress_bar : Bool
  log_thresh : Nat
deriving DecidableEq

/-- `batch_size = 128` (line 66). -/
def batch_size : Nat := 128

/-- The keyword arguments the script passes to `gen_backend` (lines 70-75). -/
structure BackendConfig where
  backend : String
  batch_size : Nat
  rng_seed : Int
  device_id : Int
  default_dtype : String
  stochastic_round : Bool
deriving DecidableEq

/-- `be = gen_backend(backend=args.backend, batch_size=batch_size,
rng_seed=args.rng_seed, device_id=args.device_id,
default_dtype=args.datatype, stochastic_round=False)` (lines 70-75). -/
def gen_backend (args : Args) : BackendConfig :=
  ⟨args.backend, batch_size, args.rng_seed, args.device_id, args.datatype, false⟩

/-- The arguments the script passes to `GradientDescentMomentum`. -/
structure GradientDescentMomentum where
  learning_rate : ℚ
  momentum_coef : ℚ
  stochastic_round : Bool
deriving DecidableEq

/-- `optimizer = GradientDescentMomentum(0.1, momentum_coef=0.9,
stochastic_round=args.rounding)` (line 123). -/
def optimizer (args : Args) : GradientDescentMomentum :=
  ⟨0.1, 0.9, args.rounding⟩

/-- A callback attached to the `Callbacks` container: a validation callback
with its cadence, or a serialize (checkpoint) callback with its cadence and
destination path. -/
inductive Callback where
  | validation (cadence : Int)
  | serialize (schedule : Int) (path : String)
deriving DecidableEq

/-- Errors that abort the script before `fit` runs. -/
inductive ScriptError where
  | configurationError
  | assertionError (msg : String)
deriving DecidableEq

/-- `callbacks = Callbacks(mlp, train_set, ...)` (lines 134-135) followed by
the validation block (lines 137-139): the container starts with no optional
callbacks, and `if args.validation_freq:` (Python truthiness, i.e. nonzero)
appends the validation callback at that cadence. -/
def with_validation (args : Args) : List Callback :=
  if args.validation_freq ≠ 0 then [.validation args.validation_freq] else []

/-- Modelled from the spec: `Callbacks.add_serialize_callback` is
repository code (`neon/callbacks/callbacks.py`) that is not included under
`src/`.  The spec says checkpointing at a positive cadence requires a
non-empty `checkpoint_path`, and that an empty path with a positive cadence
fails with a `ConfigurationError` before the callback is attached;
otherwise the serialize callback is appended with its schedule and path. -/
def add_serialize_callback (cbs : List Callback) (schedule : Int)
    (path : String) : Except ScriptError (List Callback) :=
  if path = "" then .error .configurationError
  else .ok (cbs ++ [.serialize schedule path])

/-- The callback-configuration step of the script (lines 134-146): base
container, validation block, then `if args.serialize > 0:` calls
`add_serialize_callback(args.serialize, args.save_path)`. -/
def setup_callbacks (args : Args) : Except ScriptError (List Callback) :=
  if args.serialize > 0 then
    add_serialize_callback (with_validation args) args.serialize args.save_path
  else
    .ok (with_validation args)

/-- The final line printed on success (line 151):
`print('Misclassification error = %.1f%%' % (mlp.eval(valid_set,
metric=Misclassification())*100))`.  The metric value returned by the
external engine is multiplied by 100 and interpolated between the fixed
text pieces (`%.1f` renders it to one decimal; the rendering itself is
Python string formatting, external to this configuration layer). -/
structure FinalReport where
  text_before : String
  percent : ℚ
  text_after : String
deriving DecidableEq

/-- What a successful run produces: the path weights were restored from (if
any), the attached callbacks, and the printed report. -/
structure RunResult where
  loaded_weights : Option String
  callbacks : List Callback
  report : FinalReport
deriving DecidableEq

/-- Lines 128-131: `if args.model_file:` (truthy means present and
non-empty) asserts `os.path.exists(args.model_file)` with message
`'%s not found'` and then loads the weights from it. -/
def load_model_step (args : Args) (path_exists : String → Bool) :
    Except ScriptError (Option String) :=
  match args.model_file with
  | some f =>
      if f = "" then .ok none
      else if path_exists f then .ok (some f)
      else .error (.assertionError (f ++ " not found"))
  | none => .ok none

/-- The tail of the script (lines 128-151) in order: restore weights if
`model_file` is given, configure callbacks, run `fit` (external), then
evaluate on the validation set and print the misclassification
percentage.  `eval_metric` stands for the value
`mlp.eval(valid_set, metric=Misclassification())` returned by the external
engine. -/
def run_script (args : Args) (path_exists : String → Bool) (eval_metric : ℚ) :
    Except ScriptError RunResult :=
  match load_model_step args path_exists with
  | .error e => .error e
  | .ok loaded =>
      match setup_callbacks args with
      | .error e => .error e
      | .ok cbs =>
          .ok ⟨loaded, cbs, ⟨"Misclassification error = ", eval_metric * 100, "%"⟩⟩

/-- Replace the `rounding` field of an argument vector, leaving every other
parsed argument unchanged (two runs differing only in `--rounding`). -/
def set_rounding (a : Args) (r : Bool) : Args :=
  ⟨a.backend, a.rng_seed, a.device_id, a.datatype, r, a.epochs, a.validation_freq,
   a.serialize, a.save_path, a.model_file, a.data_dir, a.output_file, a.progress_bar,
   a.log_thresh⟩

/-- Concrete argument vector: checkpoint cadence 1 with an empty save path. -/
def demoArgsC4 : Args :=
  ⟨"cpu", 0, 0, "float32", false, 10, 0, 1, "", none, "", "", false, 20⟩

/-- Concrete argument vector: a model file is supplied. -/
def demoArgsC5 : Args :=
  ⟨"cpu", 0, 0, "float32", false, 10, 0, 0, "ckpt.pkl", some "checkpoint.pkl", "", "", false, 20⟩

/-- Concrete argument vector: validation frequency 2, checkpointing off. -/
def demoArgsC6 : Args :=
  ⟨"cpu", 0, 0, "float32", false, 10, 2, 0, "ckpt.pkl", none, "", "", false, 20⟩

/-- Concrete argument vector: checkpoint cadence 2 with a non-empty path. -/
def demoArgsC7 : Args :=
  ⟨"cpu", 0, 0, "float32", false, 10, 0, 2, "ckpt.pkl", none, "", "", false, 20⟩

/-- Concrete argument vector: no model file, no optional callbacks. -/
def demoArgsC8 : Args :=
  ⟨"cpu", 0, 0, "float32", false, 10, 0, 0, "", none, "", "", false, 20⟩

/-- Concrete result of a run under `demoArgsC8` with evaluation metric 3/10. -/
def demoRunC8 : RunResult :=
  ⟨none, [], ⟨"Misclassification error = ", (3 / 10 : ℚ) * 100, "%"⟩⟩

/-- Concrete argument vector: negative validation frequency. -/
def demoArgsC10 : Args :=
  ⟨"cpu", 0, 0, "float32", false, 10, -3, 0, "", none, "", "", false, 20⟩

/-- A validation callback is in the list built by the validation block iff
the frequency is nonzero and the cadence is that frequency. -/
theorem validation_mem_with_validation (args : Args) (c : Int) :
    Callback.validation c ∈ with_validation args ↔
      args.validation_freq ≠ 0 ∧ c = args.validation_freq := by
  unfold with_validation
  split <;> simp_all

/-- The validation block never attaches a serialize callback. -/
theorem serialize_not_mem_with_validation (args : Args) (s : Int) (p : String) :
    Callback.serialize s p ∉ with_validation args := by
  unfold with_validation
  split <;> simp

/-- The callback step preserves validation-callback membership: a validation
callback is in a successful result iff the validation block attached it. -/
theorem validation_mem_setup (args : Args) (cbs : List Callback) (c : Int)
    (h : setup_callbacks args = Except.ok cbs) :
    (Callback.validation c ∈ cbs ↔ Callback.validation c ∈ with_validation args) := by
  unfold setup_callbacks add_serialize_callback at h
  split at h
  · split at h
    · simp at h
    · injection h with h'
      subst h'
      simp
  · injection h with h'
    subst h'
    rfl

/-- The callback step only ever fails with a ConfigurationError. -/
theorem setup_callbacks_error_kind (args : Args) (e : ScriptError)
    (h : setup_callbacks args = Except.error e) :
    e = ScriptError.configurationError := by
  unfold setup_callbacks add_serialize_callback at h
  split at h
  · split at h
    · injection h with h'
      exact h'.symm
    · simp at h
  · simp at h

/-- C1: `build_topology` constructs a main Path of exactly 4 fully-connected
layers whose terminal activation is softmax, with two BranchPoints inserted
after the 1st and 3rd fully-connected layers, and two subordinate Paths each
consisting of one hidden fully-connected layer followed by one
sigmoid-output fully-connected layer and rooted at a BranchPoint. -/
theorem c1_build_topology :
    treePaths.length = 3 ∧
    treePaths[0]? = some p1 ∧ treePaths[1]? = some p2 ∧ treePaths[2]? = some p3 ∧
    p1.countP Layer.isAffine = 4 ∧
    p1.getLast?.bind Layer.activationOf = some Activation.softmax ∧
    p1.countP Layer.isBranchNode = 2 ∧
    p1[1]? = some b1 ∧ (p1.take 1).countP Layer.isAffine = 1 ∧
    (p1.take 1).countP Layer.isBranchNode = 0 ∧
    p1[4]? = some b2 ∧ (p1.take 4).countP Layer.isAffine = 3 ∧
    (p1.take 4).countP Layer.isBranchNode = 1 ∧
    p2.head? = some b1 ∧ b1.isBranchNode = true ∧ p2.length = 3 ∧
    p2[1]?.map Layer.isAffine = some true ∧
    p2[1]?.bind Layer.activationOf = some Activation.rectlin ∧
    p2[2]?.map Layer.isAffine = some true ∧
    p2[2]?.bind Layer.activationOf = some Activation.logistic ∧
    p3.head? = some b2 ∧ b2.isBranchNode = true ∧ p3.length = 3 ∧
    p3[1]?.map Layer.isAffine = some true ∧
    p3[1]?.bind Layer.activationOf = some Activation.rectlin ∧
    p3[2]?.map Layer.isAffine = some true ∧
    p3[2]?.bind Layer.activationOf = some Activation.logistic := by
  decide

/-- C2: for the declared weight sequence [1, 0.25, 0.25] and the 3 declared
Paths, `build_cost` returns exactly 3 CostTerms in Path declaration order
with exactly those weights, pairing the main Path's terminal with
multi-class cross-entropy and each subordinate Path's terminal with binary
cross-entropy. -/
theorem c2_build_cost :
    cost.weights = alphas ∧
    alphas = [1, 0.25, 0.25] ∧
    cost.costs.length = 3 ∧
    cost.costs.length = treePaths.length ∧
    cost.weights.length = treePaths.length ∧
    cost.costs[0]? = some ⟨CostFunc.crossEntropyMulti⟩ ∧
    cost.costs[1]? = some ⟨CostFunc.crossEntropyBinary⟩ ∧
    cost.costs[2]? = some ⟨CostFunc.crossEntropyBinary⟩ ∧
    cost.weights[0]? = some (1 : ℚ) ∧
    cost.weights[1]? = some (0.25 : ℚ) ∧
    cost.weights[2]? = some (0.25 : ℚ) :=
  ⟨rfl, rfl, rfl, rfl, rfl, rfl, rfl, rfl, rfl, rfl, rfl⟩

/-- C3: every BranchPoint referenced at the start of a subordinate Path is
declared in exactly one Path positioned earlier in declaration order; b1
(root of the second Path) and b2 (root of the third Path) each occur
exactly once in the main Path, which is declared first. -/
theorem c3_branch_point_declarations :
    subordinateRootsDeclaredEarlier treePaths = true ∧
    treePaths[0]? = some p1 ∧
    p2.head? = some b1 ∧ p3.head? = some b2 ∧
    p1.count b1 = 1 ∧ p1.count b2 = 1 := by
  decide

/-- C4: if the checkpoint cadence is positive and the checkpoint
destination path is empty, the configuration step fails with a
ConfigurationError, so no checkpoint callback is attached. -/
theorem c4_empty_checkpoint_path (args : Args)
    (hc : 0 < args.serialize) (hp : args.save_path = "") :
    setup_callbacks args = Except.error ScriptError.configurationError := by
  unfold setup_callbacks
  rw [if_pos hc]
  unfold add_serialize_callback
  rw [hp, if_pos rfl]

/-- Witness for C4 at a concrete argument vector. -/
theorem c4_witness :
    0 < demoArgsC4.serialize ∧ demoArgsC4.save_path = "" ∧
    setup_callbacks demoArgsC4 = Except.error ScriptError.configurationError :=
  ⟨by decide, rfl, c4_empty_checkpoint_path demoArgsC4 (by decide) rfl⟩

/-- When a non-empty model file is supplied, the restore step loads it if it
exists on disk and otherwise fails with the assertion message. -/
theorem load_model_step_some (args : Args) (path_exists : String → Bool) (f : String)
    (hf : args.model_file = some f) (hne : f ≠ "") :
    load_model_step args path_exists =
      (if path_exists f then Except.ok (some f)
       else Except.error (ScriptError.assertionError (f ++ " not found"))) := by
  unfold load_model_step
  rw [hf]
  simp [hne]

/-- C5: if a model_file path is supplied (truthy, i.e. non-empty), the
process fails with an assertion-style fatal error before training starts
iff the path does not exist on disk; if the path exists, the model's
weights are loaded from it before the fit call. -/
theorem c5_model_file (args : Args) (path_exists : String → Bool)
    (eval_metric : ℚ) (f : String)
    (hf : args.model_file = some f) (hne : f ≠ "") :
    ((∃ msg, run_script args path_exists eval_metric =
        Except.error (ScriptError.assertionError msg)) ↔ path_exists f = false) ∧
    (path_exists f = true →
      ∀ r, run_script args path_exists eval_metric = Except.ok r →
        r.loaded_weights = some f) := by
  have hl := load_model_step_some args path_exists f hf hne
  unfold run_script
  rw [hl]
  cases hpe : path_exists f
  · rw [if_neg (by simp [hpe])]
    simp [hpe]
  · rw [if_pos rfl]
    cases hcb : setup_callbacks args with
    | error e =>
        have he := setup_callbacks_error_kind args e hcb
        subst he
        simp
    | ok cbs => simp

/-- Witness for C5 at a concrete argument vector where the file exists. -/
theorem c5_witness :
    RunResult.loaded_weights
        ⟨some "checkpoint.pkl", [], ⟨"Misclassification error = ", (0 : ℚ) * 100, "%"⟩⟩ =
      some "checkpoint.pkl" :=
  (c5_model_file demoArgsC5 (fun _ => true) 0 "checkpoint.pkl" rfl (by decide)).2 rfl
    ⟨some "checkpoint.pkl", [], ⟨"Misclassification error = ", (0 : ℚ) * 100, "%"⟩⟩ rfl

/-- C6: a validation frequency of 0 yields a callback configuration with no
validation callback attached, and a validation frequency f > 0 yields the
validation callback attached with cadence f. -/
theorem c6_validation_freq (args : Args) (cbs : List Callback)
    (h : setup_callbacks args = Except.ok cbs) :
    (args.validation_freq = 0 → ∀ c : Int, Callback.validation c ∉ cbs) ∧
    (0 < args.validation_freq → Callback.validation args.validation_freq ∈ cbs) := by
  constructor
  · intro h0 c hc
    rw [validation_mem_setup args cbs c h,
        validation_mem_with_validation args c] at hc
    exact hc.1 h0
  · intro hpos
    rw [validation_mem_setup args cbs _ h,
        validation_mem_with_validation args _]
    exact ⟨by omega, rfl⟩

/-- Witness for C6 at a concrete argument vector with frequency 2. -/
theorem c6_witness :
    setup_callbacks demoArgsC6 = Except.ok [Callback.validation 2] ∧
    (0 : Int) < 2 ∧
    Callback.validation 2 ∈ [Callback.validation 2] :=
  ⟨rfl, by decide,
   (c6_validation_freq demoArgsC6 [Callback.validation 2] rfl).2 (by decide)⟩

/-- C7: a checkpoint cadence c <= 0 yields no serialize callback attached,
and a cadence c > 0 (with the supplied save path, which the spec requires
to be non-empty) yields the serialize callback attached with cadence c
writing to that path. -/
theorem c7_serialize_gate (args : Args) :
    (args.serialize ≤ 0 → ∃ cbs, setup_callbacks args = Except.ok cbs ∧
        ∀ s p, Callback.serialize s p ∉ cbs) ∧
    (0 < args.serialize → args.save_path ≠ "" →
      ∃ cbs, setup_callbacks args = Except.ok cbs ∧
        Callback.serialize args.serialize args.save_path ∈ cbs) := by
  constructor
  · intro hle
    refine ⟨with_validation args, ?_, fun s p => serialize_not_mem_with_validation args s p⟩
    unfold setup_callbacks
    rw [if_neg (by omega)]
  · intro hpos hp
    refine ⟨with_validation args ++ [Callback.serialize args.serialize args.save_path], ?_, ?_⟩
    · unfold setup_callbacks
      rw [if_pos hpos]
      unfold add_serialize_callback
      rw [if_neg hp]
    · simp

/-- Witness for C7 at a concrete argument vector with cadence 2. -/
theorem c7_witness :
    ∃ cbs, setup_callbacks demoArgsC7 = Except.ok cbs ∧
      Callback.serialize demoArgsC7.serialize demoArgsC7.save_path ∈ cbs :=
  (c7_serialize_gate demoArgsC7).2 (by decide) (by decide)

/-- C8: on successful completion the process prints the final
misclassification percentage: the evaluation metric multiplied by 100,
between the fixed text `Misclassification error = ` and `%`. -/
theorem c8_final_print (args : Args) (path_exists : String → Bool)
    (eval_metric : ℚ) (r : RunResult)
    (h : run_script args path_exists eval_metric = Except.ok r) :
    r.report.text_before = "Misclassification error = " ∧
    r.report.percent = eval_metric * 100 ∧
    r.report.text_after = "%" := by
  unfold run_script at h
  cases hl : load_model_step args path_exists <;> rw [hl] at h
  · simp at h
  · cases hcb : setup_callbacks args <;> rw [hcb] at h
    · simp at h
    · injection h with h'
      subst h'
      exact ⟨rfl, rfl, rfl⟩

/-- Witness for C8 at a concrete run with evaluation metric 3/10. -/
theorem c8_witness :
    demoRunC8.report.text_before = "Misclassification error = " ∧
    demoRunC8.report.percent = (3 / 10 : ℚ) * 100 ∧
    demoRunC8.report.text_after = "%" :=
  c8_final_print demoArgsC8 (fun _ => false) (3 / 10) demoRunC8 rfl

/-- C9: for every value of the `--rounding` flag the backend is constructed
with `stochastic_round=False`; the flag influences only the optimizer's
stochastic-rounding setting, so the backend configuration is identical
across any two runs differing only in `--rounding`. -/
theorem c9_rounding_only_optimizer (a : Args) (r : Bool) :
    (gen_backend a).stochastic_round = false ∧
    gen_backend (set_rounding a r) = gen_backend a ∧
    (optimizer a).stochastic_round = a.rounding ∧
    (optimizer (set_rounding a r)).stochastic_round = r :=
  ⟨rfl, rfl, rfl, rfl⟩

/-- C10: the validation callback is attached for every nonzero validation
frequency, including negative values; only a frequency equal to 0 disables
validation (the gate is Python truthiness of the value). -/
theorem c10_truthiness_gate (args : Args) (cbs : List Callback)
    (h : setup_callbacks args = Except.ok cbs) :
    (Callback.validation args.validation_freq ∈ cbs ↔ args.validation_freq ≠ 0) := by
  rw [validation_mem_setup args cbs _ h, validation_mem_with_validation args _]
  simp

/-- Witness for C10 at a concrete argument vector with frequency -3. -/
theorem c10_witness :
    (Callback.validation (-3) ∈ [Callback.validation (-3)] ↔ (-3 : Int) ≠ 0) :=
  c10_truthiness_gate demoArgsC10 [Callback.validation (-3)] rfl

end MnistBranch
